import Mathlib

/-!
Shallow embedding of `runtime/extensions/evm/src/executor/wrapper.rs`, the
step-level execution tracer (`TraceExecutorWrapper`) that wraps an EVM
`StackExecutor`.

The wrapped execution engine (the `evm` crate: `StackExecutor`, `Runtime`,
`gasometer`) is, per the specification, an external collaborator whose
semantics are out of scope.  It is therefore modelled as an oracle: every
value the wrapper reads from the engine during one iteration of its trace
loop (the inspected opcode, the machine stack and memory, the substate
stack, the responses of the gas-cost computations, the machine position,
the account lookup, and the outcome of the single-step primitive) is
recorded in an `IterData` environment record, and a whole run is the list
of those records, consumed one per loop iteration.  The engine functions
the wrapper calls outside the loop (`code`, `create_address`,
`call_inner`, `create_inner`, backend queries, ...) are oracle function
fields of the `Inner` structure.  All control flow of the wrapper itself
is translated directly from the source.
-/

namespace EvmTrace

/-- Addresses (`H160`), hashes (`H256`) and words (`U256`) are abstracted as
naturals; none of the verified properties depends on their bit width. -/
abbrev H160 := Nat

/-- 256-bit hash, abstracted as a natural. -/
abbrev H256 := Nat

/-- 256-bit word, abstracted as a natural. -/
abbrev U256 := Nat

/-- `evm::ExitError`: the wrapper never inspects its variants, so it is
abstracted as a natural number code. -/
abbrev ExitError := Nat

/-- `evm::ExitSucceed`. -/
inductive ExitSucceed where
  | stopped
  | returned
  | suicided
deriving DecidableEq

/-- `evm::ExitRevert`. -/
inductive ExitRevert where
  | reverted
deriving DecidableEq

/-- `evm::ExitFatal`; the wrapper only ever constructs `UnhandledInterrupt`. -/
inductive ExitFatal where
  | notSupported
  | unhandledInterrupt
  | callErrorAsFatal (e : ExitError)
  | other (msg : List Nat)
deriving DecidableEq

/-- `evm::ExitReason`. -/
inductive ExitReason where
  | succeed (s : ExitSucceed)
  | error (e : ExitError)
  | revert (r : ExitRevert)
  | fatal (f : ExitFatal)
deriving DecidableEq

/-- True exactly on `ExitReason::Succeed`. -/
def ExitReason.isSucceed : ExitReason → Bool
  | .succeed _ => true
  | _ => false

/-- True exactly on `ExitReason::Error`. -/
def ExitReason.isError : ExitReason → Bool
  | .error _ => true
  | _ => false

/-- True exactly on `ExitReason::Revert`. -/
def ExitReason.isRevert : ExitReason → Bool
  | .revert _ => true
  | _ => false

/-- True exactly on `ExitReason::Fatal`. -/
def ExitReason.isFatal : ExitReason → Bool
  | .fatal _ => true
  | _ => false

/-- `Result<Opcode, ExternalOpcode>` as produced by `machine().inspect()`:
`opc` is an ordinary opcode (`Ok`), `xopc` a control-transfer opcode that
needs host intervention (`Err`).  Opcode identities are abstracted as
naturals. -/
inductive OpcodeRes where
  | opc (n : Nat)
  | xopc (n : Nat)
deriving DecidableEq

/-- `evm::Capture`: either a terminal exit value or a trap requiring host
intervention. -/
inductive Capture (E T : Type) where
  | exit (e : E)
  | trap (t : T)
deriving DecidableEq

/-- `evm::CreateScheme`. -/
inductive CreateScheme where
  | legacy (caller : H160)
  | create2 (caller : H160) (code_hash : H256) (salt : H256)
  | fixed (address : H160)
deriving DecidableEq

/-- `evm::Transfer`. -/
structure Transfer where
  source : H160
  target : H160
  value : U256
deriving DecidableEq

/-- `evm::Context`. -/
structure Context where
  address : H160
  caller : H160
  apparent_value : U256
deriving DecidableEq

/-- `moonbeam_rpc_primitives_debug::StepLog`: one step record.  Byte
sequences are lists of naturals; the storage `BTreeMap` is an association
list. -/
structure StepLog where
  depth : U256
  gas : U256
  gas_cost : U256
  memory : List Nat
  op : List Nat
  pc : U256
  stack : List U256
  storage : List (H256 × H256)
deriving DecidableEq

instance {ε α : Type} [DecidableEq ε] [DecidableEq α] : DecidableEq (Except ε α) :=
  fun a b =>
    match a, b with
    | .ok x, .ok y =>
      if h : x = y then .isTrue (by rw [h]) else .isFalse (by simp [h])
    | .ok _, .error _ => .isFalse (by simp)
    | .error _, .ok _ => .isFalse (by simp)
    | .error x, .error y =>
      if h : x = y then .isTrue (by rw [h]) else .isFalse (by simp [h])

/-- The view of the innermost engine substate that one trace-loop iteration
reads: the cloned gasometer's remaining gas and the result of its
`inner()` accessor, the static flag, and the call depth. -/
structure SubstateView where
  gasometer_gas : Nat
  gasometer_inner : Except ExitError Unit
  is_static : Bool
  depth : Option Nat
deriving DecidableEq

/-- Everything the trace loop reads from the engine during one iteration,
recorded as oracle data:
`inspect` is `machine().inspect()` (with `stack` the machine stack it
returns), `substates` is `inner.substates()`, `opcode_cost` the response
of `gasometer::opcode_cost`, `gas_cost` the response of
`inner.gas_cost(opcode_cost, gas)`, `position` is `machine().position()`,
`executor_gas` is `inner.gas()`, `account` is
`inner.account(context.address)` reduced to its storage map, and `step`
the result of `runtime.step(self)`. -/
structure IterData where
  inspect : Option OpcodeRes
  stack : List U256
  memory : List Nat
  substates : List SubstateView
  opcode_cost : Except ExitError (Nat × Nat)
  gas_cost : Except ExitError Nat
  position : Except ExitReason Nat
  executor_gas : Nat
  account : Option (List (H256 × H256))
  step : Except (Capture ExitReason Unit) Unit
deriving DecidableEq

/-- An in-progress program run (`evm::Runtime`): the per-iteration oracle
data of its machine, plus the machine's final `return_value()`. -/
structure Runtime where
  script : List IterData
  return_value : List Nat

/-- Abstract rendering of the `Display` output of `Opcode` /
`ExternalOpcode` (`to_string().as_bytes().to_vec()`), as an injective byte
encoding. -/
def opcodeBytes : OpcodeRes → List Nat
  | .opc n => 0 :: [n]
  | .xopc n => 1 :: [n]

/-- The step record the loop body pushes for one successfully inspected,
costed and positioned instruction (the `StepLog { .. }` literal in
`trace`). -/
def mkStepLog (d : IterData) (substate : SubstateView) (opcode : OpcodeRes)
    (gas_cost : Nat) (position : Nat) : StepLog :=
  { depth := substate.depth.getD 0
    gas := d.executor_gas
    gas_cost := gas_cost
    memory := d.memory
    op := opcodeBytes opcode
    pc := position
    stack := d.stack
    storage := d.account.getD [] }

/-- Result of one trace-loop run.  `invariantViolation` models the two
panics of the loop body: the `expect` on an empty substate stack and the
`unreachable!` hit when inspection yields no instruction but the position
lookup succeeds. -/
inductive TraceOutcome where
  | normal (r : ExitReason)
  | invariantViolation
deriving DecidableEq

/-- How one loop iteration acts: terminate without a record, append one
record and terminate, or append one record and continue. -/
inductive IterRes where
  | stop (o : TraceOutcome)
  | recordThen (l : StepLog) (o : TraceOutcome)
  | recordContinue (l : StepLog)
deriving DecidableEq

/-- The body of one iteration of `TraceExecutorWrapper::trace`, translated
match-for-match from the source: inspect; read the innermost substate
(panicking if there is none); run `gasometer::opcode_cost`, then the
cloned gasometer's `inner()` and `gas_cost` (a failure of any of the
three terminates with that error); read the position (a failure
terminates with that reason); push the step record; then act on the
single-step result.  When inspection yields nothing, a failing position
lookup terminates with its reason and a succeeding one is the
`unreachable!` invariant violation. -/
def iter (d : IterData) : IterRes :=
  match d.inspect with
  | some opcode =>
    match d.substates.getLast? with
    | none => .stop .invariantViolation
    | some substate =>
      match d.opcode_cost with
      | .error e => .stop (.normal (.error e))
      | .ok _ =>
        match substate.gasometer_inner with
        | .error e => .stop (.normal (.error e))
        | .ok _ =>
          match d.gas_cost with
          | .error e => .stop (.normal (.error e))
          | .ok gas_cost =>
            match d.position with
            | .error reason => .stop (.normal reason)
            | .ok position =>
              match d.step with
              | .ok _ => .recordContinue (mkStepLog d substate opcode gas_cost position)
              | .error (.exit s) =>
                .recordThen (mkStepLog d substate opcode gas_cost position) (.normal s)
              | .error (.trap _) =>
                .recordThen (mkStepLog d substate opcode gas_cost position)
                  (.normal (.fatal .unhandledInterrupt))
  | none =>
    match d.position with
    | .error reason => .stop (.normal reason)
    | .ok _ => .stop .invariantViolation

/-- `TraceExecutorWrapper::trace`: drive the loop over the run's oracle
script.  Returns the outcome, the accumulated step records in push order,
and the unconsumed remainder of the script (the machine state left
behind).  Exhausting the script without the engine ever reporting a
terminal state cannot happen for a faithful environment trace and is
classified as an invariant violation. -/
def trace : List IterData → TraceOutcome × List StepLog × List IterData
  | [] => (.invariantViolation, [], [])
  | d :: rest =>
    match iter d with
    | .stop o => (o, [], rest)
    | .recordThen l o => (o, [l], rest)
    | .recordContinue l =>
      ((trace rest).1, l :: (trace rest).2.1, (trace rest).2.2)

/-- `u64::MAX`, the "unbounded gas" sentinel. -/
def u64MAX : Nat := 2 ^ 64 - 1

/-- What `StackExecutor::enter_substate(gas_limit, is_static)` records, as
seen from the wrapper: a fresh substate scope bound to the given gas limit
and static flag.  The engine-internal elaboration of the scope is not
modelled. -/
structure Substate where
  gas_limit : Nat
  is_static : Bool
deriving DecidableEq

/-- The engine backend (`Backend` queries reached through
`self.inner.backend()`), as oracle data. -/
structure Backend where
  gas_price : U256
  origin : H160
  block_hash : U256 → H256
  block_number : U256
  block_coinbase : H160
  block_timestamp : U256
  block_difficulty : U256
  block_gas_limit : U256
  chain_id : U256

/-- The wrapped `StackExecutor`, modelled as the oracle responses of every
engine operation the wrapper invokes, plus the two pieces of engine state
the wrapper itself pushes into (the substate stack via `enter_substate`
and the materialized accounts via `account_mut`).  `mkRuntime` is the
oracle for `Runtime::new(code, data, context, config)`: the behaviour of
the machine the engine builds from that code, input and context.
`call_inner` / `create_inner` are the oracle responses of the engine's
own (untraced) call and create execution. -/
structure Inner where
  balance : H160 → U256
  code_size : H160 → U256
  code_hash : H160 → H256
  code : H160 → List Nat
  storage : H160 → H256 → H256
  original_storage : H160 → H256 → H256
  exists' : H160 → Bool
  gas_left : U256
  backend : Backend
  deleted : H160 → Bool
  set_storage : H160 → H256 → H256 → Except ExitError Unit
  log : H160 → List H256 → List Nat → Except ExitError Unit
  mark_delete : H160 → H160 → Except ExitError Unit
  pre_validate : Context → OpcodeRes → List U256 → Except ExitError Unit
  create_address : CreateScheme → H160
  mkRuntime : List Nat → List Nat → Context → Runtime
  call_inner : H160 → Option Transfer → List Nat → Option Nat → Bool → Bool → Bool →
    Context → Capture (ExitReason × List Nat) Empty
  create_inner : H160 → CreateScheme → U256 → List Nat → Option Nat → Bool →
    Capture (ExitReason × Option H160 × List Nat) Empty
  substates : List Substate
  accounts : List H160

/-- `StackExecutor::enter_substate`: push a fresh substate scope bound to
the given gas limit and static flag. -/
def Inner.enter_substate (inner : Inner) (gas_limit : Nat) (is_st : Bool) : Inner :=
  { inner with substates := inner.substates.concat ⟨gas_limit, is_st⟩ }

/-- `StackExecutor::account_mut`: materialize the account at the given
address. -/
def Inner.account_mut (inner : Inner) (address : H160) : Inner :=
  { inner with accounts := address :: inner.accounts }

/-- `TraceExecutorWrapper`: the wrapped engine, the tracing flag fixed at
construction, and the accumulated step records. -/
structure TraceExecutorWrapper where
  inner : Inner
  is_tracing : Bool
  step_logs : List StepLog

/-- `TraceExecutorWrapper::trace_call`: read the callee code, push a
non-static substate bound to the gas limit, materialize the callee
account, build a fresh run from code, input and context, trace it, and
translate the outcome (return value on success and revert, empty output
on error and fatal).  `none` in the first component models the propagated
panic of an invariant violation inside the loop. -/
def trace_call (w : TraceExecutorWrapper) (caller : H160) (address : H160) (value : U256)
    (data : List Nat) (gas_limit : Nat) :
    Option (Capture (ExitReason × List Nat) Empty) × TraceExecutorWrapper :=
  let code := w.inner.code address
  let inner' := (w.inner.enter_substate gas_limit false).account_mut address
  let context : Context := { caller := caller, address := address, apparent_value := value }
  let runtime := w.inner.mkRuntime code data context
  let t := trace runtime.script
  let w' : TraceExecutorWrapper :=
    { inner := inner', is_tracing := w.is_tracing, step_logs := w.step_logs ++ t.2.1 }
  let res : Option (Capture (ExitReason × List Nat) Empty) :=
    match t.1 with
    | .invariantViolation => none
    | .normal (.succeed s) => some (.exit (.succeed s, runtime.return_value))
    | .normal (.error e) => some (.exit (.error e, []))
    | .normal (.revert e) => some (.exit (.revert e, runtime.return_value))
    | .normal (.fatal e) => some (.exit (.fatal e, []))
  (res, w')

/-- `TraceExecutorWrapper::trace_create`: derive the address from the
legacy scheme keyed by the caller, push a non-static substate bound to
the gas limit, build a fresh run from the init code with empty input,
trace it, and translate the outcome (the address is attached only on
success; the return value is attached on success and revert). -/
def trace_create (w : TraceExecutorWrapper) (caller : H160) (value : U256) (code : List Nat)
    (gas_limit : Nat) :
    Option (Capture (ExitReason × Option H160 × List Nat) Empty) × TraceExecutorWrapper :=
  let scheme := CreateScheme.legacy caller
  let address := w.inner.create_address scheme
  let inner' := w.inner.enter_substate gas_limit false
  let context : Context := { caller := caller, address := address, apparent_value := value }
  let runtime := w.inner.mkRuntime code [] context
  let t := trace runtime.script
  let w' : TraceExecutorWrapper :=
    { inner := inner', is_tracing := w.is_tracing, step_logs := w.step_logs ++ t.2.1 }
  let res : Option (Capture (ExitReason × Option H160 × List Nat) Empty) :=
    match t.1 with
    | .invariantViolation => none
    | .normal (.succeed s) => some (.exit (.succeed s, some address, runtime.return_value))
    | .normal (.error e) => some (.exit (.error e, none, []))
    | .normal (.revert e) => some (.exit (.revert e, none, runtime.return_value))
    | .normal (.fatal e) => some (.exit (.fatal e, none, []))
  (res, w')

/-- `Handler::call` on the wrapper: when tracing, derive caller and value
from the transfer record (defaulting to the callee as caller with zero
value), default the gas limit to `u64::MAX`, and run `trace_call`; when
not tracing, forward to the engine's `call_inner`. -/
def call (w : TraceExecutorWrapper) (code_address : H160) (transfer : Option Transfer)
    (input : List Nat) (target_gas : Option Nat) (is_static : Bool) (context : Context) :
    Option (Capture (ExitReason × List Nat) Empty) × TraceExecutorWrapper :=
  if w.is_tracing then
    let cv : H160 × U256 :=
      match transfer with
      | some t => (t.source, t.value)
      | none => (code_address, 0)
    let gas_limit : Nat :=
      match target_gas with
      | some gas => gas
      | none => u64MAX
    trace_call w cv.1 code_address cv.2 input gas_limit
  else
    (some (w.inner.call_inner code_address transfer input target_gas is_static true true context),
      w)

/-- `Handler::create` on the wrapper: when tracing, default the gas limit
to `u64::MAX` and run `trace_create` (the requested scheme is not passed
on); when not tracing, forward to the engine's `create_inner`. -/
def create (w : TraceExecutorWrapper) (caller : H160) (scheme : CreateScheme) (value : U256)
    (init_code : List Nat) (target_gas : Option Nat) :
    Option (Capture (ExitReason × Option H160 × List Nat) Empty) × TraceExecutorWrapper :=
  if w.is_tracing then
    let gas_limit : Nat :=
      match target_gas with
      | some gas => gas
      | none => u64MAX
    trace_create w caller value init_code gas_limit
  else
    (some (w.inner.create_inner caller scheme value init_code target_gas true), w)

/-- `Handler::balance`: forwarded verbatim. -/
def balance (w : TraceExecutorWrapper) (address : H160) : U256 :=
  w.inner.balance address

/-- `Handler::code_size`: forwarded verbatim. -/
def code_size (w : TraceExecutorWrapper) (address : H160) : U256 :=
  w.inner.code_size address

/-- `Handler::code_hash`: forwarded verbatim. -/
def code_hash (w : TraceExecutorWrapper) (address : H160) : H256 :=
  w.inner.code_hash address

/-- `Handler::code`: forwarded verbatim. -/
def code (w : TraceExecutorWrapper) (address : H160) : List Nat :=
  w.inner.code address

/-- `Handler::storage`: forwarded verbatim. -/
def storage (w : TraceExecutorWrapper) (address : H160) (index : H256) : H256 :=
  w.inner.storage address index

/-- `Handler::original_storage`: forwarded verbatim. -/
def original_storage (w : TraceExecutorWrapper) (address : H160) (index : H256) : H256 :=
  w.inner.original_storage address index

/-- `Handler::exists`: forwarded verbatim. -/
def exists' (w : TraceExecutorWrapper) (address : H160) : Bool :=
  w.inner.exists' address

/-- `Handler::gas_left`: forwarded verbatim. -/
def gas_left (w : TraceExecutorWrapper) : U256 :=
  w.inner.gas_left

/-- `Handler::gas_price`: forwarded verbatim to the backend. -/
def gas_price (w : TraceExecutorWrapper) : U256 :=
  w.inner.backend.gas_price

/-- `Handler::origin`: forwarded verbatim to the backend. -/
def origin (w : TraceExecutorWrapper) : H160 :=
  w.inner.backend.origin

/-- `Handler::block_hash`: forwarded verbatim to the backend. -/
def block_hash (w : TraceExecutorWrapper) (number : U256) : H256 :=
  w.inner.backend.block_hash number

/-- `Handler::block_number`: forwarded verbatim to the backend. -/
def block_number (w : TraceExecutorWrapper) : U256 :=
  w.inner.backend.block_number

/-- `Handler::block_coinbase`: forwarded verbatim to the backend. -/
def block_coinbase (w : TraceExecutorWrapper) : H160 :=
  w.inner.backend.block_coinbase

/-- `Handler::block_timestamp`: forwarded verbatim to the backend. -/
def block_timestamp (w : TraceExecutorWrapper) : U256 :=
  w.inner.backend.block_timestamp

/-- `Handler::block_difficulty`: forwarded verbatim to the backend. -/
def block_difficulty (w : TraceExecutorWrapper) : U256 :=
  w.inner.backend.block_difficulty

/-- `Handler::block_gas_limit`: forwarded verbatim to the backend. -/
def block_gas_limit (w : TraceExecutorWrapper) : U256 :=
  w.inner.backend.block_gas_limit

/-- `Handler::chain_id`: forwarded verbatim to the backend. -/
def chain_id (w : TraceExecutorWrapper) : U256 :=
  w.inner.backend.chain_id

/-- `Handler::deleted`: forwarded verbatim. -/
def deleted (w : TraceExecutorWrapper) (address : H160) : Bool :=
  w.inner.deleted address

/-- `Handler::set_storage`: forwarded verbatim, result propagated
unchanged. -/
def set_storage (w : TraceExecutorWrapper) (address : H160) (index : H256) (value : H256) :
    Except ExitError Unit :=
  w.inner.set_storage address index value

/-- `Handler::log`: forwarded verbatim, result propagated unchanged. -/
def log (w : TraceExecutorWrapper) (address : H160) (topics : List H256) (data : List Nat) :
    Except ExitError Unit :=
  w.inner.log address topics data

/-- `Handler::mark_delete`: forwarded verbatim, result propagated
unchanged. -/
def mark_delete (w : TraceExecutorWrapper) (address : H160) (target : H160) :
    Except ExitError Unit :=
  w.inner.mark_delete address target

/-- `Handler::pre_validate`: forwarded verbatim. -/
def pre_validate (w : TraceExecutorWrapper) (context : Context) (opcode : OpcodeRes)
    (stack : List U256) : Except ExitError Unit :=
  w.inner.pre_validate context opcode stack

/-- An iteration's gas-cost computation succeeded: an instruction was
inspected, the innermost substate existed, and `opcode_cost`, the
gasometer's `inner()` and `gas_cost` all returned `Ok`. -/
def costSucceeded (d : IterData) : Bool :=
  match d.inspect with
  | none => false
  | some _ =>
    match d.substates.getLast? with
    | none => false
    | some substate =>
      match d.opcode_cost with
      | .error _ => false
      | .ok _ =>
        match substate.gasometer_inner with
        | .error _ => false
        | .ok _ =>
          match d.gas_cost with
          | .error _ => false
          | .ok _ => true

/-- An `Except` value is `ok`. -/
def exceptOk {ε α : Type} : Except ε α → Bool
  | .ok _ => true
  | .error _ => false

/-- A concrete healthy innermost-substate view used by the witnesses. -/
def okSub : SubstateView :=
  { gasometer_gas := 100, gasometer_inner := .ok (), is_static := false, depth := some 1 }

/-- A concrete iteration whose single step yields a trap. -/
def trapIter : IterData :=
  { inspect := some (.opc 1), stack := [5], memory := [7], substates := [okSub],
    opcode_cost := .ok (2, 0), gas_cost := .ok 3, position := .ok 0,
    executor_gas := 50, account := none, step := .error (.trap ()) }

/-- A concrete iteration whose single step continues the loop. -/
def okIter : IterData :=
  { trapIter with step := .ok () }

/-- A concrete iteration whose single step reaches a terminal success. -/
def exitIter : IterData :=
  { trapIter with step := .error (.exit (.succeed .stopped)) }

/-- A concrete iteration whose `opcode_cost` computation fails. -/
def costFailIter : IterData :=
  { trapIter with opcode_cost := .error 9 }

/-- A concrete terminal iteration: inspection yields nothing and the
position lookup reports the stop reason. -/
def stopIter : IterData :=
  { inspect := none, stack := [], memory := [], substates := [],
    opcode_cost := .ok (0, 0), gas_cost := .ok 0,
    position := .error (.succeed .stopped),
    executor_gas := 0, account := none, step := .ok () }

/-- A concrete backend used by the witnesses. -/
def testBackend : Backend :=
  { gas_price := 1, origin := 2, block_hash := fun _ => 3, block_number := 4,
    block_coinbase := 5, block_timestamp := 6, block_difficulty := 7,
    block_gas_limit := 8, chain_id := 9 }

/-- A run that halts immediately: its machine inspects nothing and
reports a stop. -/
def haltRuntime : Runtime :=
  { script := [stopIter], return_value := [] }

/-- A concrete engine used by the witnesses and counterexamples: every
run halts immediately with success, the legacy scheme derives address
`10` while a salted scheme derives address `20`, and the engine's own
(untraced) create succeeds with the address of the requested scheme. -/
def testInner : Inner :=
  { balance := fun a => a + 100, code_size := fun _ => 0, code_hash := fun _ => 0,
    code := fun _ => [], storage := fun _ _ => 0, original_storage := fun _ _ => 0,
    exists' := fun _ => false, gas_left := 1000, backend := testBackend,
    deleted := fun _ => false,
    set_storage := fun _ _ _ => .ok (), log := fun _ _ _ => .ok (),
    mark_delete := fun _ _ => .ok (),
    pre_validate := fun _ _ _ => .ok (),
    create_address := fun s =>
      match s with
      | .legacy _ => 10
      | .create2 _ _ _ => 20
      | .fixed a => a,
    mkRuntime := fun _ _ _ => haltRuntime,
    call_inner := fun _ _ _ _ _ _ _ _ => .exit (.succeed .stopped, []),
    create_inner := fun _ scheme _ _ _ _ =>
      .exit (.succeed .stopped,
        some (match scheme with
          | .legacy _ => 10
          | .create2 _ _ _ => 20
          | .fixed a => a), []),
    substates := [], accounts := [] }

/-- A run whose single instruction reverts, with a non-empty return
value. -/
def revertRuntime : Runtime :=
  { script := [{ trapIter with step := .error (.exit (.revert .reverted)) }],
    return_value := [13] }

/-- The concrete engine whose runs revert. -/
def revertInner : Inner :=
  { testInner with mkRuntime := fun _ _ _ => revertRuntime }

/-- Unfolding of `trace` over a consumed iteration. -/
theorem trace_cons (d : IterData) (rest : List IterData) :
    trace (d :: rest) =
      match iter d with
      | .stop o => (o, [], rest)
      | .recordThen l o => (o, [l], rest)
      | .recordContinue l => ((trace rest).1, l :: (trace rest).2.1, (trace rest).2.2) := rfl

/-- When inspection yields nothing and the position lookup fails, the
iteration stops with that reason. -/
theorem iter_inspect_none_posErr (d : IterData) (r : ExitReason)
    (h1 : d.inspect = none) (h2 : d.position = .error r) :
    iter d = .stop (.normal r) := by
  simp [iter, h1, h2]

/-- When inspection yields nothing but the position lookup succeeds, the
iteration hits the `unreachable!` invariant violation. -/
theorem iter_inspect_none_posOk (d : IterData) (p : Nat)
    (h1 : d.inspect = none) (h2 : d.position = .ok p) :
    iter d = .stop .invariantViolation := by
  simp [iter, h1, h2]

/-- A failing `opcode_cost` stops the iteration with that error. -/
theorem iter_cost_err (d : IterData) (op : OpcodeRes) (sub : SubstateView) (e : ExitError)
    (h1 : d.inspect = some op) (h2 : d.substates.getLast? = some sub)
    (h3 : d.opcode_cost = .error e) :
    iter d = .stop (.normal (.error e)) := by
  simp [iter, h1, h2, h3]

/-- With inspection, substate, both cost computations and the position all
succeeding, the iteration records one step and then acts on the
single-step result. -/
theorem iter_all_ok (d : IterData) (op : OpcodeRes) (sub : SubstateView)
    (c₁ c₂ gc p : Nat)
    (h1 : d.inspect = some op) (h2 : d.substates.getLast? = some sub)
    (h3 : d.opcode_cost = .ok (c₁, c₂)) (h4 : sub.gasometer_inner = .ok ())
    (h5 : d.gas_cost = .ok gc) (h6 : d.position = .ok p) :
    iter d =
      match d.step with
      | .ok _ => .recordContinue (mkStepLog d sub op gc p)
      | .error (.exit s) => .recordThen (mkStepLog d sub op gc p) (.normal s)
      | .error (.trap _) =>
        .recordThen (mkStepLog d sub op gc p) (.normal (.fatal .unhandledInterrupt)) := by
  simp [iter, h1, h2, h3, h4, h5, h6]

/-- A record-and-stop iteration had a successful cost computation. -/
theorem iter_recordThen_cost (d : IterData) (l : StepLog) (o : TraceOutcome)
    (h : iter d = .recordThen l o) : costSucceeded d = true := by
  unfold iter at h
  repeat' split at h
  all_goals simp_all [costSucceeded]

/-- A record-and-continue iteration had a successful cost computation. -/
theorem iter_recordContinue_cost (d : IterData) (l : StepLog)
    (h : iter d = .recordContinue l) : costSucceeded d = true := by
  unfold iter at h
  repeat' split at h
  all_goals simp_all [costSucceeded]

/-- A successful cost computation together with a successful position
lookup forces the iteration to record a step. -/
theorem iter_of_cost_true (d : IterData) (h : costSucceeded d = true)
    (hp : exceptOk d.position = true) :
    (∃ l, iter d = .recordContinue l) ∨ ∃ l o, iter d = .recordThen l o := by
  unfold costSucceeded at h
  repeat' split at h
  all_goals simp_all [iter, exceptOk]
  cases hq : d.position with
  | error e => simp [hq] at hp
  | ok p =>
    cases hs : d.step with
    | ok u => exact Or.inl ⟨_, rfl⟩
    | error c =>
      cases c with
      | exit s => exact Or.inr ⟨_, _, rfl⟩
      | trap t => exact Or.inr ⟨_, _, rfl⟩

/-- An iteration that stops without a record had a failed cost
computation, provided position lookups do not fail after a successful
cost computation. -/
theorem iter_stop_cost (d : IterData) (o : TraceOutcome) (h : iter d = .stop o)
    (hp : costSucceeded d = true → exceptOk d.position = true) :
    costSucceeded d = false := by
  cases hc : costSucceeded d with
  | false => rfl
  | true =>
    rcases iter_of_cost_true d hc (hp hc) with ⟨l, hl⟩ | ⟨l, o', hl⟩ <;> simp [hl] at h

/-- C1: the trace-transparency property fails on the code.  For a create
intercepted with a salted (CREATE2) scheme over the concrete engine
`testInner` — whose address derivation maps the legacy scheme to `10` and
the salted scheme to `20`, and whose own create honours the requested
scheme — both modes terminate successfully, but tracing enabled reports
created address `10` (derived from `Legacy { caller }`, the requested
scheme being discarded) while tracing disabled reports `20`. -/
theorem c1_trace_transparency_violated :
    (create ⟨testInner, true, []⟩ 1 (.create2 1 0 0) 0 [] none).1
      = some (.exit (.succeed .stopped, some 10, []))
    ∧ (create ⟨testInner, false, []⟩ 1 (.create2 1 0 0) 0 [] none).1
      = some (.exit (.succeed .stopped, some 20, []))
    ∧ (10 : H160) ≠ 20 :=
  ⟨by decide, by decide, by decide⟩

/-- C2 counterexample: on the concrete engine `revertInner` a traced
create terminates with a revert and carries NO created address, refuting
the claim that the address is present exactly when the exit reason is
success or revert. -/
theorem c2_counterexample :
    (trace_create ⟨revertInner, true, []⟩ 1 0 [] 100).1
      = some (.exit (.revert .reverted, none, [13]))
    ∧ ¬ ((none : Option H160).isSome = true ↔
        ((ExitReason.revert .reverted).isSucceed = true
          ∨ (ExitReason.revert .reverted).isRevert = true)) :=
  ⟨by decide, by decide⟩

/-- C2 (amended): for every traced create invocation that returns a
result, the created address is present exactly when the terminal exit
reason is success (it is absent on revert, error and fatal), and the
output bytes are empty on error and fatal (hence non-empty only on
success or revert). -/
theorem c2_create_result (w : TraceExecutorWrapper) (caller : H160) (value : U256)
    (code : List Nat) (gas_limit : Nat) (r : ExitReason) (a : Option H160) (out : List Nat)
    (h : (trace_create w caller value code gas_limit).1 = some (.exit (r, a, out))) :
    (a.isSome = true ↔ r.isSucceed = true)
    ∧ ((r.isError = true ∨ r.isFatal = true) → out = []) := by
  unfold trace_create at h
  dsimp only at h
  split at h
  · exact absurd h (by simp)
  all_goals
    simp only [Option.some.injEq, Capture.exit.injEq, Prod.mk.injEq] at h
    obtain ⟨rfl, rfl, rfl⟩ := h
    simp [ExitReason.isSucceed, ExitReason.isError, ExitReason.isRevert, ExitReason.isFatal]

/-- Witness for C2 at a concrete successful create over `testInner`. -/
theorem c2_witness :
    ((some (10 : Nat)).isSome = true ↔ (ExitReason.succeed .stopped).isSucceed = true)
    ∧ (((ExitReason.succeed .stopped).isError = true
        ∨ (ExitReason.succeed .stopped).isFatal = true) → ([] : List Nat) = []) :=
  c2_create_result ⟨testInner, true, []⟩ 1 0 [] 100 (.succeed .stopped) (some 10) []
    (by decide)

/-- C3: over any run whose position lookups do not fail after a
successful cost computation, the number of step records equals the number
of consumed iterations whose gas-cost computation succeeded; and an
instruction whose cost computation fails contributes zero records and
terminates the loop immediately with that error as the exit reason. -/
theorem c3_step_count (s : List IterData)
    (hpos : ∀ d ∈ s, costSucceeded d = true → exceptOk d.position = true) :
    (∃ pre, s = pre ++ (trace s).2.2
        ∧ (trace s).2.1.length = (pre.filter costSucceeded).length)
    ∧ (∀ d rest sub e, d.inspect.isSome = true → d.substates.getLast? = some sub →
        d.opcode_cost = .error e →
        trace (d :: rest) = (.normal (.error e), [], rest)) := by
  constructor
  · induction s with
    | nil => exact ⟨[], rfl, rfl⟩
    | cons d rest ih =>
      have hd : costSucceeded d = true → exceptOk d.position = true :=
        hpos d (List.mem_cons_self d rest)
      obtain ⟨pre, hpre, hlen⟩ := ih fun d' h' => hpos d' (List.mem_cons_of_mem d h')
      rcases hcl : iter d with o | ⟨l, o⟩ | l
      · have hc : costSucceeded d = false := iter_stop_cost d o hcl hd
        refine ⟨[d], ?_, ?_⟩
        · simp [trace_cons, hcl]
        · simp [trace_cons, hcl, List.filter_cons, hc]
      · have hc : costSucceeded d = true := iter_recordThen_cost d l o hcl
        refine ⟨[d], ?_, ?_⟩
        · simp [trace_cons, hcl]
        · simp [trace_cons, hcl, List.filter_cons, hc]
      · have hc : costSucceeded d = true := iter_recordContinue_cost d l hcl
        refine ⟨d :: pre, ?_, ?_⟩
        · simpa [trace_cons, hcl] using hpre
        · simp [trace_cons, hcl, List.filter_cons, hc, hlen]
  · intro d rest sub e h1 h2 h3
    obtain ⟨op, hop⟩ := Option.isSome_iff_exists.mp h1
    simp [trace_cons, iter_cost_err d op sub e hop h2 h3]

/-- Witness for C3 on a concrete two-instruction run: both cost
computations succeed and exactly two records are produced. -/
theorem c3_witness : (trace [okIter, exitIter]).2.1.length = 2 := by
  obtain ⟨⟨pre, hpre, hlen⟩, -⟩ := c3_step_count [okIter, exitIter] (by decide)
  have hrest : (trace [okIter, exitIter]).2.2 = [] := by decide
  rw [hrest, List.append_nil] at hpre
  rw [hlen, ← hpre]
  decide

/-- C4: in an iteration where inspection yields no instruction, a failing
position lookup ends the loop with that reason, while a succeeding
position lookup is the invariant violation (the `unreachable!`), not a
normal error path. -/
theorem c4_no_instruction (d : IterData) (rest : List IterData) (h : d.inspect = none) :
    (∀ r, d.position = .error r → trace (d :: rest) = (.normal r, [], rest))
    ∧ (∀ p, d.position = .ok p → trace (d :: rest) = (.invariantViolation, [], rest)) := by
  constructor
  · intro r hr
    simp [trace_cons, iter_inspect_none_posErr d r h hr]
  · intro p hp
    simp [trace_cons, iter_inspect_none_posOk d p h hp]

/-- Witness for C4 on a concrete terminal iteration. -/
theorem c4_witness : trace [stopIter] = (.normal (.succeed .stopped), [], []) :=
  (c4_no_instruction stopIter [] rfl).1 (.succeed .stopped) rfl

/-- C5: after a fully successful inspection, a trap from the single-step
primitive ends the loop with the fatal `UnhandledInterrupt` reason
(distinct from an ordinary error by construction of `ExitReason`), a
terminal exit capture ends the loop with that exit's reason, and a
successful step continues the loop. -/
theorem c5_single_step_outcomes (d : IterData) (rest : List IterData) (op : OpcodeRes)
    (sub : SubstateView) (c₁ c₂ gc p : Nat)
    (h1 : d.inspect = some op) (h2 : d.substates.getLast? = some sub)
    (h3 : d.opcode_cost = .ok (c₁, c₂)) (h4 : sub.gasometer_inner = .ok ())
    (h5 : d.gas_cost = .ok gc) (h6 : d.position = .ok p) :
    (∀ t, d.step = .error (.trap t) →
        trace (d :: rest)
          = (.normal (.fatal .unhandledInterrupt), [mkStepLog d sub op gc p], rest))
    ∧ (∀ r, d.step = .error (.exit r) →
        trace (d :: rest) = (.normal r, [mkStepLog d sub op gc p], rest))
    ∧ (∀ u, d.step = .ok u →
        trace (d :: rest)
          = ((trace rest).1, mkStepLog d sub op gc p :: (trace rest).2.1, (trace rest).2.2)) := by
  have hall := iter_all_ok d op sub c₁ c₂ gc p h1 h2 h3 h4 h5 h6
  refine ⟨?_, ?_, ?_⟩
  · intro t ht; rw [ht] at hall; simp [trace_cons, hall]
  · intro r hr; rw [hr] at hall; simp [trace_cons, hall]
  · intro u hu; rw [hu] at hall; simp [trace_cons, hall]

/-- Witness for C5 on a concrete trapping iteration. -/
theorem c5_witness :
    trace [trapIter]
      = (.normal (.fatal .unhandledInterrupt), [mkStepLog trapIter okSub (.opc 1) 3 0], []) :=
  (c5_single_step_outcomes trapIter [] (.opc 1) okSub 2 0 3 0 rfl rfl rfl rfl rfl rfl).1 () rfl

/-- C6: a nested traced call with no transfer record uses the callee as
caller and a zero value (it is indistinguishable from one with an
explicit transfer of zero value from the callee), and a missing gas limit
defaults to `u64::MAX` for both traced calls and traced creates. -/
theorem c6_nested_defaults (inner : Inner) (logs : List StepLog) (code_address t : H160)
    (input : List Nat) (tg : Option Nat) (st : Bool) (ctx : Context)
    (caller : H160) (scheme : CreateScheme) (value : U256) (init_code : List Nat) :
    call ⟨inner, true, logs⟩ code_address none input tg st ctx
      = call ⟨inner, true, logs⟩ code_address (some ⟨code_address, t, 0⟩) input tg st ctx
    ∧ call ⟨inner, true, logs⟩ code_address none input none st ctx
      = trace_call ⟨inner, true, logs⟩ code_address code_address 0 input u64MAX
    ∧ call ⟨inner, true, logs⟩ code_address none input (some u64MAX) st ctx
      = call ⟨inner, true, logs⟩ code_address none input none st ctx
    ∧ create ⟨inner, true, logs⟩ caller scheme value init_code none
      = trace_create ⟨inner, true, logs⟩ caller value init_code u64MAX :=
  ⟨rfl, rfl, rfl, rfl⟩

/-- C7: when the executing account cannot be resolved, the appended step
record's storage is the empty mapping and the loop continues normally
(its outcome is that of the remaining iterations). -/
theorem c7_unresolvable_account (d : IterData) (rest : List IterData) (op : OpcodeRes)
    (sub : SubstateView) (c₁ c₂ gc p : Nat)
    (h1 : d.inspect = some op) (h2 : d.substates.getLast? = some sub)
    (h3 : d.opcode_cost = .ok (c₁, c₂)) (h4 : sub.gasometer_inner = .ok ())
    (h5 : d.gas_cost = .ok gc) (h6 : d.position = .ok p)
    (hacc : d.account = none) (hstep : d.step = .ok ()) :
    (trace (d :: rest)).2.1.head? = some (mkStepLog d sub op gc p)
    ∧ (mkStepLog d sub op gc p).storage = []
    ∧ (trace (d :: rest)).1 = (trace rest).1 := by
  have hall := iter_all_ok d op sub c₁ c₂ gc p h1 h2 h3 h4 h5 h6
  rw [hstep] at hall
  refine ⟨?_, ?_, ?_⟩
  · simp [trace_cons, hall]
  · simp [mkStepLog, hacc]
  · simp [trace_cons, hall]

/-- Witness for C7 on a concrete iteration with an unresolvable
account. -/
theorem c7_witness :
    (trace [okIter, exitIter]).2.1.head? = some (mkStepLog okIter okSub (.opc 1) 3 0)
    ∧ (mkStepLog okIter okSub (.opc 1) 3 0).storage = []
    ∧ (trace [okIter, exitIter]).1 = (trace [exitIter]).1 :=
  c7_unresolvable_account okIter [exitIter] (.opc 1) okSub 2 0 3 0 rfl rfl rfl rfl rfl rfl rfl rfl

/-- C8: every read-only host query and every mutation on the tracer
returns exactly the value returned by the same operation on the wrapped
engine, with mutation results propagated unchanged. -/
theorem c8_pass_through (w : TraceExecutorWrapper) (a t : H160) (i v : H256) (n : U256)
    (topics : List H256) (data : List Nat) :
    balance w a = w.inner.balance a
    ∧ code_size w a = w.inner.code_size a
    ∧ code_hash w a = w.inner.code_hash a
    ∧ code w a = w.inner.code a
    ∧ storage w a i = w.inner.storage a i
    ∧ original_storage w a i = w.inner.original_storage a i
    ∧ exists' w a = w.inner.exists' a
    ∧ gas_left w = w.inner.gas_left
    ∧ gas_price w = w.inner.backend.gas_price
    ∧ origin w = w.inner.backend.origin
    ∧ block_hash w n = w.inner.backend.block_hash n
    ∧ block_number w = w.inner.backend.block_number
    ∧ block_coinbase w = w.inner.backend.block_coinbase
    ∧ block_timestamp w = w.inner.backend.block_timestamp
    ∧ block_difficulty w = w.inner.backend.block_difficulty
    ∧ block_gas_limit w = w.inner.backend.block_gas_limit
    ∧ chain_id w = w.inner.backend.chain_id
    ∧ deleted w a = w.inner.deleted a
    ∧ set_storage w a i v = w.inner.set_storage a i v
    ∧ log w a topics data = w.inner.log a topics data
    ∧ mark_delete w a t = w.inner.mark_delete a t :=
  ⟨rfl, rfl, rfl, rfl, rfl, rfl, rfl, rfl, rfl, rfl, rfl, rfl, rfl, rfl, rfl, rfl, rfl,
    rfl, rfl, rfl, rfl⟩

/-- C9: a nested call intercepted while tracing discards the `is_static`
flag and the caller-supplied context (the result is identical for any
two values of each), and the substate pushed for the traced execution is
non-static. -/
theorem c9_static_flag_discarded (inner : Inner) (logs : List StepLog) (code_address : H160)
    (transfer : Option Transfer) (input : List Nat) (tg : Option Nat)
    (st₁ st₂ : Bool) (ctx₁ ctx₂ : Context) :
    call ⟨inner, true, logs⟩ code_address transfer input tg st₁ ctx₁
      = call ⟨inner, true, logs⟩ code_address transfer input tg st₂ ctx₂
    ∧ (call ⟨inner, true, logs⟩ code_address transfer input tg st₁ ctx₁).2.inner.substates.getLast?
      = some ⟨(match tg with | some g => g | none => u64MAX), false⟩ := by
  refine ⟨rfl, ?_⟩
  cases transfer <;> cases tg <;>
    simp [call, trace_call, Inner.enter_substate, Inner.account_mut, List.getLast?_concat]

/-- C10: a nested create intercepted while tracing discards the
requested creation scheme (the result is identical for any two schemes),
and whenever it reports a created address on success, that address is the
engine's derivation for the legacy scheme keyed by the caller. -/
theorem c10_create_scheme_discarded (inner : Inner) (logs : List StepLog) (caller : H160)
    (s₁ s₂ : CreateScheme) (value : U256) (init_code : List Nat) (tg : Option Nat) :
    create ⟨inner, true, logs⟩ caller s₁ value init_code tg
      = create ⟨inner, true, logs⟩ caller s₂ value init_code tg
    ∧ ∀ s r a out,
        (create ⟨inner, true, logs⟩ caller s value init_code tg).1 = some (.exit (r, a, out)) →
        r.isSucceed = true → a = some (inner.create_address (.legacy caller)) := by
  refine ⟨rfl, ?_⟩
  intro s r a out h hsucc
  have h' : (trace_create ⟨inner, true, logs⟩ caller value init_code
      (match tg with | some g => g | none => u64MAX)).1 = some (.exit (r, a, out)) := h
  unfold trace_create at h'
  dsimp only at h'
  split at h'
  · exact absurd h' (by simp)
  all_goals
    simp only [Option.some.injEq, Capture.exit.injEq, Prod.mk.injEq] at h'
    obtain ⟨rfl, rfl, rfl⟩ := h'
    first
      | rfl
      | simp [ExitReason.isSucceed] at hsucc

/-- Witness for C10 on a concrete successful traced create over
`testInner`. -/
theorem c10_witness :
    some (10 : H160) = some (testInner.create_address (.legacy 1)) :=
  (c10_create_scheme_discarded testInner [] 1 (.fixed 5) (.legacy 9) 0 [] none).2
    (.create2 1 0 0) (.succeed .stopped) (some 10) [] (by decide) (by decide)

end EvmTrace
